import Mathlib

/-!
Shallow embedding of the polling/normalization/cache subsystem of
`src/common/jira.go` (package `common`) of the `aim` repository, together
with theorems checking its natural-language specification against it.

Modelling conventions:

* Go `time.Time` is modelled as `Option DateTime`; `none` models Go's zero
  time (the value for which `IsZero()` holds), so "absent timestamp" and
  "zero timestamp" coincide, exactly as in the source where the zero value
  marks an unset field.
* The Go map `map[string]*jira.Issue` (the issue cache) is modelled as the
  function type `String → Option Issue`, updated pointwise.
* JSON-decoded `interface{}` values held in `Fields.Unknowns` are modelled
  by the tagged variant `UValue`; Go type assertions become matches on the
  tag.
* The unbounded `for` loop of `GetIssues` is modelled with an explicit
  `fuel` bound; exhausting the fuel yields a distinguished error that no
  finite run of the Go loop exhibits.  Theorems either supply enough fuel
  or keep that case visible as an explicit disjunct.
* The call `time.Now()` inside `RefreshData` is an injected clock argument
  `now : Nat`.
* The HTTP search call `j.client.Issue.Search(jql, options)` is an injected
  function of type `SearchFun`, receiving the JQL string, `StartAt` and
  `MaxResults` exactly as the Go call does through `jira.SearchOptions`.
-/

namespace Aim

/-- Calendar timestamp as produced by parsing with the fixed Go layout
`2006-01-02T15:04:05.999-0700`. -/
structure DateTime where
  year : Nat
  month : Nat
  day : Nat
  hour : Nat
  minute : Nat
  second : Nat
  nanos : Nat
  tzMinutes : Int
deriving DecidableEq

/-- Go `time.Time`; `none` models the zero time (`IsZero`). -/
abbrev GoTime := Option DateTime

/-- Raw value decoded from a JSON custom field (a Go `interface{}` as
produced by JSON unmarshalling), modelled as a tagged variant. -/
inductive UValue where
  | str (s : String)
  | obj (fields : List (String × UValue))
  | arr (elems : List UValue)
  | num (n : Int)
  | boolv (b : Bool)
  | null

/-- Lookup in a decoded JSON object / Go map access `m[k]` (first binding
wins; a missing key yields `none`, on which every type assertion fails). -/
def mapGet : List (String × UValue) → String → Option UValue
  | [], _ => none
  | (k', v) :: rest, k => if k' = k then some v else mapGet rest k

/-- Numeric value of a decimal digit character, `none` otherwise. -/
def digitVal (c : Char) : Option Nat :=
  if '0' ≤ c ∧ c ≤ '9' then some (c.toNat - 48) else none

/-- Read exactly `n` decimal digits, most significant first. -/
def readFixed : Nat → Nat → List Char → Option (Nat × List Char)
  | 0, acc, cs => some (acc, cs)
  | n + 1, acc, c :: cs =>
    match digitVal c with
    | some d => readFixed n (acc * 10 + d) cs
    | none => none
  | _ + 1, _, [] => none

/-- Consume one expected character. -/
def expectChar : Char → List Char → Option (List Char)
  | c, c' :: cs => if c = c' then some cs else none
  | _, [] => none

/-- Consume a maximal run of decimal digits. -/
def takeDigits : List Char → List Nat × List Char
  | [] => ([], [])
  | c :: cs =>
    match digitVal c with
    | some d =>
      let (ds, rest) := takeDigits cs
      (d :: ds, rest)
    | none => ([], c :: cs)

/-- Gregorian leap-year test. -/
def isLeapYear (y : Nat) : Bool :=
  (y % 4 == 0 && y % 100 != 0) || y % 400 == 0

/-- Number of days in a month. -/
def daysInMonth (y m : Nat) : Nat :=
  if m = 2 then (if isLeapYear y then 29 else 28)
  else if m = 4 ∨ m = 6 ∨ m = 9 ∨ m = 11 then 30
  else 31

/-- Nanosecond value of a fractional-second digit list. -/
def fracNanos (ds : List Nat) : Nat :=
  (ds.foldl (fun a d => a * 10 + d) 0) * 10 ^ (9 - ds.length)

/-- Parse the date part `YYYY-MM-DD` of the fixed layout. -/
def parseDatePart (cs : List Char) : Option (Nat × Nat × Nat × List Char) :=
  match readFixed 4 0 cs with
  | none => none
  | some (year, cs) =>
    match expectChar '-' cs with
    | none => none
    | some cs =>
      match readFixed 2 0 cs with
      | none => none
      | some (month, cs) =>
        match expectChar '-' cs with
        | none => none
        | some cs =>
          match readFixed 2 0 cs with
          | none => none
          | some (day, cs) => some (year, month, day, cs)

/-- Parse the clock part `Thh:mm:ss` of the fixed layout. -/
def parseClockPart (cs : List Char) : Option (Nat × Nat × Nat × List Char) :=
  match expectChar 'T' cs with
  | none => none
  | some cs =>
    match readFixed 2 0 cs with
    | none => none
    | some (hour, cs) =>
      match expectChar ':' cs with
      | none => none
      | some cs =>
        match readFixed 2 0 cs with
        | none => none
        | some (minute, cs) =>
          match expectChar ':' cs with
          | none => none
          | some cs =>
            match readFixed 2 0 cs with
            | none => none
            | some (second, cs) => some (hour, minute, second, cs)

/-- Parse the optional fractional second `.sss` of the fixed layout. -/
def parseFracPart (cs : List Char) : Option (Nat × List Char) :=
  match cs with
  | '.' :: rest =>
    match takeDigits rest with
    | (ds, rest') =>
      if ds.length = 0 ∨ 9 < ds.length then none
      else some (fracNanos ds, rest')
  | _ => some (0, cs)

/-- Parse the mandatory numeric timezone `±hhmm` of the fixed layout,
returning the offset in minutes. -/
def parseTzPart (cs : List Char) : Option (Int × List Char) :=
  match cs with
  | '+' :: rest =>
    match readFixed 2 0 rest with
    | none => none
    | some (tzh, cs) =>
      match readFixed 2 0 cs with
      | none => none
      | some (tzm, cs) => some (((tzh * 60 + tzm : Nat) : Int), cs)
  | '-' :: rest =>
    match readFixed 2 0 rest with
    | none => none
    | some (tzh, cs) =>
      match readFixed 2 0 cs with
      | none => none
      | some (tzm, cs) => some (-((tzh * 60 + tzm : Nat) : Int), cs)
  | _ => none

/-- Parser for the fixed layout `2006-01-02T15:04:05.999-0700` used by the
three timestamp custom fields in `ConvertToCustomIssues`.  Models Go
`time.Parse` with that layout: the fractional second is optional, the
numeric timezone is mandatory, and any shape or range violation fails. -/
def parseJiraTime (s : String) : Option DateTime :=
  match parseDatePart s.data with
  | none => none
  | some (year, month, day, cs) =>
    match parseClockPart cs with
    | none => none
    | some (hour, minute, second, cs) =>
      match parseFracPart cs with
      | none => none
      | some (nanos, cs) =>
        match parseTzPart cs with
        | none => none
        | some (tz, cs) =>
          if cs = [] ∧ 1 ≤ month ∧ month ≤ 12 ∧ 1 ≤ day ∧ day ≤ daysInMonth year month
              ∧ hour ≤ 23 ∧ minute ≤ 59 ∧ second ≤ 59 then
            some { year := year, month := month, day := day, hour := hour,
                   minute := minute, second := second, nanos := nanos,
                   tzMinutes := tz }
          else
            none

/-- The go-jira `jira.User` identity object: it carries both a username
(`Name`) and a `DisplayName`; only the fields relevant here are modelled. -/
structure JiraUser where
  name : String
  displayName : String

/-- The go-jira `jira.IssueType`; only `Name` is read by the mapper. -/
structure IssueTypeField where
  name : String

/-- The go-jira `jira.IssueFields`, restricted to the fields that
`ConvertToCustomIssues` reads.  `Typ` models the Go field `Type`. -/
structure IssueFields where
  Assignee : Option JiraUser := none
  Reporter : Option JiraUser := none
  Created : GoTime := none
  Updated : GoTime := none
  Resolutiondate : GoTime := none
  Typ : IssueTypeField := { name := "" }
  Unknowns : List (String × UValue) := []

/-- The go-jira `jira.Issue`, restricted to `ID`, `Key` and `Fields`. -/
structure Issue where
  ID : String
  Key : String
  Fields : IssueFields

/-- The normalized record `JiraIssue` of `src/common/jira.go` (lines
41-66).  Field defaults are the Go zero values. -/
structure JiraIssue where
  Key : String := ""
  Created : GoTime := none
  Updated : GoTime := none
  Resolved : GoTime := none
  Assignee : String := ""
  Closed : GoTime := none
  Head : String := ""
  Started : GoTime := none
  Firefighting : GoTime := none
  Fixed : GoTime := none
  Severity : String := ""
  Service : String := ""
  RootCause : String := ""
  Regions : String := ""
  Recovery : String := ""
  Reporter : String := ""
  Detected : GoTime := none
  Escalated : GoTime := none
  Metrics : String := ""
  IssueType : String := ""
  Environment : String := ""
  Application : String := ""
  BusinessProcess : String := ""
  Score : Int := 0
deriving DecidableEq

/-- Mapper step (jira.go line 170): `if issue.Fields.Assignee != nil`. -/
def assigneeStep (c : JiraIssue) (a : Option JiraUser) : JiraIssue :=
  match a with
  | some u => { c with Assignee := u.name }
  | none => c

/-- Mapper step (line 174): `if issue.Fields.Reporter != nil`. -/
def reporterStep (c : JiraIssue) (r : Option JiraUser) : JiraIssue :=
  match r with
  | some u => { c with Reporter := u.name }
  | none => c

/-- Mapper step (line 182): set `Resolved` only for a non-zero
`Resolutiondate`. -/
def resolvedStep (c : JiraIssue) (r : GoTime) : JiraIssue :=
  match r with
  | some t => { c with Resolved := some t }
  | none => c

/-- Mapper step (line 186): set `IssueType` only for a non-empty name. -/
def issueTypeStep (c : JiraIssue) (t : IssueTypeField) : JiraIssue :=
  if t.name ≠ "" then { c with IssueType := t.name } else c

/-- Mapper step (line 193): `customfield_20908` (closed), a bare string
parsed as a timestamp. -/
def closedStep (c : JiraIssue) (u : List (String × UValue)) : JiraIssue :=
  match mapGet u "customfield_20908" with
  | some (.str val) =>
    if val ≠ "" then
      match parseJiraTime val with
      | some t => { c with Closed := some t }
      | none => c
    else c
  | _ => c

/-- Mapper step (line 200): `customfield_22501` (head), a nested object
exposing a `name` property. -/
def headStep (c : JiraIssue) (u : List (String × UValue)) : JiraIssue :=
  match mapGet u "customfield_22501" with
  | some (.obj m) =>
    match mapGet m "name" with
    | some (.str s) => { c with Head := s }
    | _ => c
  | _ => c

/-- Mapper step (line 207): `customfield_18117` (started). -/
def startedStep (c : JiraIssue) (u : List (String × UValue)) : JiraIssue :=
  match mapGet u "customfield_18117" with
  | some (.str val) =>
    if val ≠ "" then
      match parseJiraTime val with
      | some t => { c with Started := some t }
      | none => c
    else c
  | _ => c

/-- Mapper step (line 214): `customfield_21200` (firefighting). -/
def firefightingStep (c : JiraIssue) (u : List (String × UValue)) : JiraIssue :=
  match mapGet u "customfield_21200" with
  | some (.str val) =>
    if val ≠ "" then
      match parseJiraTime val with
      | some t => { c with Firefighting := some t }
      | none => c
    else c
  | _ => c

/-- Mapper step (line 222): `customfield_18119` (severity), a nested
object exposing a `value` property. -/
def severityStep (c : JiraIssue) (u : List (String × UValue)) : JiraIssue :=
  match mapGet u "customfield_18119" with
  | some (.obj m) =>
    match mapGet m "value" with
    | some (.str s) => { c with Severity := s }
    | _ => c
  | _ => c

/-- Mapper step (line 229): `customfield_33803` (service), a non-empty
array whose first element is asserted to be a string. -/
def serviceStep (c : JiraIssue) (u : List (String × UValue)) : JiraIssue :=
  match mapGet u "customfield_33803" with
  | some (.arr vals) =>
    match vals with
    | .str s :: _ => { c with Service := s }
    | _ => c
  | _ => c

/-- Mapper step (line 236): `customfield_37238` (root cause). -/
def rootCauseStep (c : JiraIssue) (u : List (String × UValue)) : JiraIssue :=
  match mapGet u "customfield_37238" with
  | some (.arr vals) =>
    match vals with
    | .str s :: _ => { c with RootCause := s }
    | _ => c
  | _ => c

/-- Per-issue body of `ConvertToCustomIssues` (lines 165-240): the
assignments of the Go loop body, applied in source order. -/
def convertOne (issue : Issue) : JiraIssue :=
  let c : JiraIssue := { Key := issue.Key }
  let c := assigneeStep c issue.Fields.Assignee
  let c := reporterStep c issue.Fields.Reporter
  let c := { c with Created := issue.Fields.Created,
                    Updated := issue.Fields.Updated }
  let c := resolvedStep c issue.Fields.Resolutiondate
  let c := issueTypeStep c issue.Fields.Typ
  let c := closedStep c issue.Fields.Unknowns
  let c := headStep c issue.Fields.Unknowns
  let c := startedStep c issue.Fields.Unknowns
  let c := firefightingStep c issue.Fields.Unknowns
  let c := severityStep c issue.Fields.Unknowns
  let c := serviceStep c issue.Fields.Unknowns
  let c := rootCauseStep c issue.Fields.Unknowns
  c

/-- The issue cache `map[string]*jira.Issue`, modelled pointwise. -/
abbrev Cache := String → Option Issue

/-- Method `updateIssueCache` (lines 249-253): `j.issueCache[issue.ID] = issue`. -/
def updateIssueCache (cache : Cache) (issue : Issue) : Cache :=
  fun k => if k = issue.ID then some issue else cache k

/-- State of a `JiraClient`: the configuration read by `GetIssues`
plus the two mutable fields guarded by `mu` (`lastRefresh`, `issueCache`).
The `time.Time` field `lastRefresh` is a clock reading, modelled as `Nat`
(its Go zero value is `0`). -/
structure JiraClient where
  projectKey : String
  queryFilter : String
  lastRefresh : Nat := 0
  issueCache : Cache

/-- JQL construction in `GetIssues` (lines 97-102): the base query, and
the optional extra filter appended with `" AND "` when non-empty. -/
def buildJQL (j : JiraClient) : String :=
  let jql := "project = " ++ j.projectKey ++
    " AND status not in (Cancelled,Rejected) AND created>=startOfYear(-1y) ORDER BY created DESC"
  if j.queryFilter ≠ "" then jql ++ " AND " ++ j.queryFilter else jql

/-- The injected search endpoint: JQL string, `StartAt`, `MaxResults`. -/
abbrev SearchFun := String → Nat → Nat → Except String (List Issue)

/-- Pagination loop of `GetIssues` (lines 111-148).  Components of the
result: the returned issue list or error, the issue cache after the loop
(the Go loop inserts every fetched issue into `j.issueCache` as it goes),
and the number of page requests issued (ghost instrumentation).  `fuel`
bounds the otherwise unbounded Go `for` loop. -/
def getIssuesLoop (search : SearchFun) (jql : String) (maxResults : Nat) :
    Nat → Nat → List Issue → Cache → Nat → Except String (List Issue) × Cache × Nat
  | 0, _, _, cache, reqs => (.error "pagination loop did not terminate", cache, reqs)
  | fuel + 1, startAt, allIssues, cache, reqs =>
    match search jql startAt maxResults with
    | .error e => (.error ("error searching issues: " ++ e), cache, reqs + 1)
    | .ok chunk =>
      if chunk.length = 0 then (.ok allIssues, cache, reqs + 1)
      else
        let cache' := chunk.foldl updateIssueCache cache
        let allIssues' := allIssues ++ chunk
        if chunk.length < maxResults then (.ok allIssues', cache', reqs + 1)
        else getIssuesLoop search jql maxResults fuel (startAt + chunk.length) allIssues' cache' (reqs + 1)

/-- Method `GetIssues` (lines 93-158): builds the JQL, then pages through
the results with `maxResults := 1000`, starting at offset `0`, caching
every fetched issue on the way. -/
def GetIssues (j : JiraClient) (search : SearchFun) (fuel : Nat) :
    Except String (List Issue) × Cache × Nat :=
  getIssuesLoop search (buildJQL j) 1000 fuel 0 [] j.issueCache 0

/-- Method `ConvertToCustomIssues` (lines 161-246): a loop appending one
converted record per input record; the Go function always returns a `nil`
error. -/
def ConvertToCustomIssues (_j : JiraClient) (issues : List Issue) :
    Except String (List JiraIssue) :=
  .ok (issues.foldl (fun acc issue => acc ++ [convertOne issue]) [])

/-- Method `RefreshData` (lines 281-309): fetch, convert, and on success
set `lastRefresh := time.Now()` (the injected `now`).  On any error it
only logs and returns; note that the cache mutations already performed by
`GetIssues` remain in place in either case. -/
def RefreshData (j : JiraClient) (search : SearchFun) (fuel now : Nat) : JiraClient :=
  match GetIssues j search fuel with
  | (.error _, cache, _) => { j with issueCache := cache }
  | (.ok issues, cache, _) =>
    match ConvertToCustomIssues j issues with
    | .error _ => { j with issueCache := cache }
    | .ok _ => { j with issueCache := cache, lastRefresh := now }

/-- Method `GetLastRefreshTime` (lines 312-316). -/
def GetLastRefreshTime (j : JiraClient) : Nat :=
  j.lastRefresh

/-- Specification-side definition (spec section 4.2, shape (a)): a bare
string parsed as a timestamp with the fixed format; anything else is
absent.  Used on the right-hand side of refinement statements. -/
def specTimestampShape (v : Option UValue) : Option DateTime :=
  match v with
  | some (.str s) => parseJiraTime s
  | _ => none

/-- Specification-side definition (spec section 4.2, shape (b)): a nested
object exposing a `name` property. -/
def specNameShape (v : Option UValue) : Option String :=
  match v with
  | some (.obj m) =>
    match mapGet m "name" with
    | some (.str s) => some s
    | _ => none
  | _ => none

/-- Specification-side definition (spec section 4.2, shape (c)): a nested
object exposing a `value` property. -/
def specValueShape (v : Option UValue) : Option String :=
  match v with
  | some (.obj m) =>
    match mapGet m "value" with
    | some (.str s) => some s
    | _ => none
  | _ => none

/-- Specification-side definition (spec section 4.2, shape (d)): a
non-empty array whose first element is a string. -/
def specFirstStringShape (v : Option UValue) : Option String :=
  match v with
  | some (.arr (.str s :: _)) => some s
  | _ => none

/-- Specification-side JQL construction (spec sections 4.1 and 6, and
claim C3): the optional free-form filter clause is logically ANDed into
the filter expression, with the ordering clause last. -/
def buildJQLSpec (projectKey queryFilter : String) : String :=
  let filter := "project = " ++ projectKey ++
    " AND status not in (Cancelled,Rejected) AND created>=startOfYear(-1y)"
  let filter := if queryFilter ≠ "" then filter ++ " AND " ++ queryFilter else filter
  filter ++ " ORDER BY created DESC"

/-- First-wins choice on optional timestamps. -/
def orGoTime (a b : GoTime) : GoTime :=
  match a with
  | some t => some t
  | none => b

@[simp]
lemma orGoTime_none (a : GoTime) : orGoTime a none = a := by
  cases a <;> rfl

@[simp]
lemma ite_empty_self (s : String) : (if s = "" then "" else s) = s := by
  by_cases h : s = "" <;> simp [h]

lemma parseJiraTime_empty : parseJiraTime "" = none := by
  rfl

lemma assigneeStep_eq (c : JiraIssue) (a : Option JiraUser) :
    assigneeStep c a = { c with Assignee := (a.map JiraUser.name).getD c.Assignee } := by
  cases a <;> rfl

lemma reporterStep_eq (c : JiraIssue) (r : Option JiraUser) :
    reporterStep c r = { c with Reporter := (r.map JiraUser.name).getD c.Reporter } := by
  cases r <;> rfl

lemma resolvedStep_eq (c : JiraIssue) (r : GoTime) :
    resolvedStep c r = { c with Resolved := orGoTime r c.Resolved } := by
  cases r <;> rfl

lemma issueTypeStep_eq (c : JiraIssue) (t : IssueTypeField) :
    issueTypeStep c t = { c with IssueType := if t.name = "" then c.IssueType else t.name } := by
  by_cases h : t.name = "" <;> simp [issueTypeStep, h]

lemma closedStep_eq (c : JiraIssue) (u : List (String × UValue)) :
    closedStep c u =
      { c with Closed := orGoTime (specTimestampShape (mapGet u "customfield_20908")) c.Closed } := by
  unfold closedStep specTimestampShape
  cases mapGet u "customfield_20908" with
  | none => simp [orGoTime]
  | some v =>
    cases v with
    | str s =>
      by_cases hs : s = ""
      · subst hs
        simp [parseJiraTime_empty, orGoTime]
      · simp only [hs, ne_eq, not_false_iff, if_true]
        cases parseJiraTime s <;> simp [orGoTime]
    | obj m => simp [orGoTime]
    | arr l => simp [orGoTime]
    | num n => simp [orGoTime]
    | boolv b => simp [orGoTime]
    | null => simp [orGoTime]

lemma startedStep_eq (c : JiraIssue) (u : List (String × UValue)) :
    startedStep c u =
      { c with Started := orGoTime (specTimestampShape (mapGet u "customfield_18117")) c.Started } := by
  unfold startedStep specTimestampShape
  cases mapGet u "customfield_18117" with
  | none => simp [orGoTime]
  | some v =>
    cases v with
    | str s =>
      by_cases hs : s = ""
      · subst hs
        simp [parseJiraTime_empty, orGoTime]
      · simp only [hs, ne_eq, not_false_iff, if_true]
        cases parseJiraTime s <;> simp [orGoTime]
    | obj m => simp [orGoTime]
    | arr l => simp [orGoTime]
    | num n => simp [orGoTime]
    | boolv b => simp [orGoTime]
    | null => simp [orGoTime]

lemma firefightingStep_eq (c : JiraIssue) (u : List (String × UValue)) :
    firefightingStep c u =
      { c with Firefighting := orGoTime (specTimestampShape (mapGet u "customfield_21200")) c.Firefighting } := by
  unfold firefightingStep specTimestampShape
  cases mapGet u "customfield_21200" with
  | none => simp [orGoTime]
  | some v =>
    cases v with
    | str s =>
      by_cases hs : s = ""
      · subst hs
        simp [parseJiraTime_empty, orGoTime]
      · simp only [hs, ne_eq, not_false_iff, if_true]
        cases parseJiraTime s <;> simp [orGoTime]
    | obj m => simp [orGoTime]
    | arr l => simp [orGoTime]
    | num n => simp [orGoTime]
    | boolv b => simp [orGoTime]
    | null => simp [orGoTime]

lemma headStep_eq (c : JiraIssue) (u : List (String × UValue)) :
    headStep c u =
      { c with Head := (specNameShape (mapGet u "customfield_22501")).getD c.Head } := by
  unfold headStep specNameShape
  cases mapGet u "customfield_22501" with
  | none => rfl
  | some v =>
    cases v with
    | obj m =>
      cases hm : mapGet m "name" with
      | none => simp [hm]
      | some w => cases w <;> simp [hm]
    | str s => rfl
    | arr l => rfl
    | num n => rfl
    | boolv b => rfl
    | null => rfl

lemma severityStep_eq (c : JiraIssue) (u : List (String × UValue)) :
    severityStep c u =
      { c with Severity := (specValueShape (mapGet u "customfield_18119")).getD c.Severity } := by
  unfold severityStep specValueShape
  cases mapGet u "customfield_18119" with
  | none => rfl
  | some v =>
    cases v with
    | obj m =>
      cases hm : mapGet m "value" with
      | none => simp [hm]
      | some w => cases w <;> simp [hm]
    | str s => rfl
    | arr l => rfl
    | num n => rfl
    | boolv b => rfl
    | null => rfl

lemma serviceStep_eq (c : JiraIssue) (u : List (String × UValue)) :
    serviceStep c u =
      { c with Service := (specFirstStringShape (mapGet u "customfield_33803")).getD c.Service } := by
  unfold serviceStep specFirstStringShape
  cases mapGet u "customfield_33803" with
  | none => rfl
  | some v =>
    cases v with
    | arr l =>
      cases l with
      | nil => rfl
      | cons hd tl => cases hd <;> rfl
    | str s => rfl
    | obj m => rfl
    | num n => rfl
    | boolv b => rfl
    | null => rfl

lemma rootCauseStep_eq (c : JiraIssue) (u : List (String × UValue)) :
    rootCauseStep c u =
      { c with RootCause := (specFirstStringShape (mapGet u "customfield_37238")).getD c.RootCause } := by
  unfold rootCauseStep specFirstStringShape
  cases mapGet u "customfield_37238" with
  | none => rfl
  | some v =>
    cases v with
    | arr l =>
      cases l with
      | nil => rfl
      | cons hd tl => cases hd <;> rfl
    | str s => rfl
    | obj m => rfl
    | num n => rfl
    | boolv b => rfl
    | null => rfl

/-- Record-level characterization of the per-issue mapper: every output
field is computed from its own projection of the raw issue, and the
custom fields follow the four specification value shapes.  Fields the
mapper never assigns keep their (Go zero value) defaults. -/
lemma convertOne_eq (issue : Issue) :
    convertOne issue =
      { Key := issue.Key
        Assignee := (issue.Fields.Assignee.map JiraUser.name).getD ""
        Reporter := (issue.Fields.Reporter.map JiraUser.name).getD ""
        Created := issue.Fields.Created
        Updated := issue.Fields.Updated
        Resolved := issue.Fields.Resolutiondate
        IssueType := issue.Fields.Typ.name
        Closed := specTimestampShape (mapGet issue.Fields.Unknowns "customfield_20908")
        Head := (specNameShape (mapGet issue.Fields.Unknowns "customfield_22501")).getD ""
        Started := specTimestampShape (mapGet issue.Fields.Unknowns "customfield_18117")
        Firefighting := specTimestampShape (mapGet issue.Fields.Unknowns "customfield_21200")
        Severity := (specValueShape (mapGet issue.Fields.Unknowns "customfield_18119")).getD ""
        Service := (specFirstStringShape (mapGet issue.Fields.Unknowns "customfield_33803")).getD ""
        RootCause := (specFirstStringShape (mapGet issue.Fields.Unknowns "customfield_37238")).getD "" } := by
  unfold convertOne
  simp only [assigneeStep_eq, reporterStep_eq, resolvedStep_eq, issueTypeStep_eq,
    closedStep_eq, headStep_eq, startedStep_eq, firefightingStep_eq,
    severityStep_eq, serviceStep_eq, rootCauseStep_eq,
    orGoTime_none, ite_empty_self]

lemma foldl_append_convert (l : List Issue) :
    ∀ acc : List JiraIssue,
      l.foldl (fun acc issue => acc ++ [convertOne issue]) acc = acc ++ l.map convertOne := by
  induction l with
  | nil => intro acc; simp
  | cons hd tl ih =>
    intro acc
    simp [List.foldl_cons, ih, List.append_assoc]

/-- The batch mapper always succeeds and maps each record independently. -/
lemma ConvertToCustomIssues_eq (j : JiraClient) (issues : List Issue) :
    ConvertToCustomIssues j issues = .ok (issues.map convertOne) := by
  unfold ConvertToCustomIssues
  rw [foldl_append_convert]
  rfl

/-- Inserting issues whose `ID` differs from `k` leaves the cache at `k`
unchanged. -/
lemma foldl_updateIssueCache_notMem (issues : List Issue) :
    ∀ (cache : Cache) (k : String), (∀ i ∈ issues, i.ID ≠ k) →
      (issues.foldl updateIssueCache cache) k = cache k := by
  induction issues with
  | nil => intro cache k _; rfl
  | cons hd tl ih =>
    intro cache k hk
    simp only [List.foldl_cons]
    rw [ih _ k (fun i hi => hk i (List.mem_cons_of_mem hd hi))]
    have hne : hd.ID ≠ k := hk hd (List.mem_cons_self hd tl)
    have hne' : ¬(k = hd.ID) := fun h => hne h.symm
    simp [updateIssueCache, hne']

/-- Any successful run of the pagination loop returns the accumulator
extended by the newly fetched issues, and its final cache is the starting
cache with exactly those fetched issues inserted (in order). -/
lemma getIssuesLoop_ok_extra (search : SearchFun) (jql : String) (m : Nat) :
    ∀ (fuel startAt : Nat) (acc : List Issue) (cache : Cache) (reqs : Nat)
      (out : List Issue) (cache' : Cache) (n : Nat),
      getIssuesLoop search jql m fuel startAt acc cache reqs = (.ok out, cache', n) →
      ∃ extra, out = acc ++ extra ∧ cache' = extra.foldl updateIssueCache cache := by
  intro fuel
  induction fuel with
  | zero =>
    intro startAt acc cache reqs out cache' n h
    simp [getIssuesLoop] at h
  | succ fuel ih =>
    intro startAt acc cache reqs out cache' n h
    unfold getIssuesLoop at h
    cases hs : search jql startAt m with
    | error e =>
      rw [hs] at h
      simp at h
    | ok chunk =>
      rw [hs] at h
      dsimp only at h
      by_cases hz : chunk.length = 0
      · rw [if_pos hz] at h
        simp only [Prod.mk.injEq, Except.ok.injEq] at h
        obtain ⟨h1, h2, h3⟩ := h
        exact ⟨[], by simp [h1], by simp [h2]⟩
      · rw [if_neg hz] at h
        by_cases hlt : chunk.length < m
        · rw [if_pos hlt] at h
          simp only [Prod.mk.injEq, Except.ok.injEq] at h
          obtain ⟨h1, h2, h3⟩ := h
          exact ⟨chunk, h1.symm, h2.symm⟩
        · rw [if_neg hlt] at h
          obtain ⟨extra, hout, hcache⟩ := ih _ _ _ _ _ _ _ h
          exact ⟨chunk ++ extra,
            by rw [hout, List.append_assoc],
            by rw [hcache, List.foldl_append]⟩

/-- Honest paginated server over a fixed ordered result set `db`: a page
request returns the window of `db` at the requested offset, at most
`maxResults` long (the query string is irrelevant to the windowing). -/
def pagedServer (db : List Issue) : SearchFun :=
  fun _ startAt maxResults => .ok ((db.drop startAt).take maxResults)

/-- Complete characterization of the pagination loop against an honest
server: starting at any offset it returns every remaining issue in server
order, inserts exactly those issues into the cache, and issues
`remaining / pageSize + 1` page requests. -/
lemma getIssuesLoop_paged (db : List Issue) (jql : String) (m : Nat) (hm : 0 < m) :
    ∀ (fuel startAt : Nat) (acc : List Issue) (cache : Cache) (reqs : Nat),
      db.length - startAt < fuel →
      getIssuesLoop (pagedServer db) jql m fuel startAt acc cache reqs =
        (.ok (acc ++ db.drop startAt),
         (db.drop startAt).foldl updateIssueCache cache,
         reqs + (db.length - startAt) / m + 1) := by
  intro fuel
  induction fuel with
  | zero =>
    intro startAt acc cache reqs hf
    exact absurd hf (by omega)
  | succ fuel ih =>
    intro startAt acc cache reqs hf
    have hlen : (db.drop startAt).length = db.length - startAt := List.length_drop _ _
    unfold getIssuesLoop
    dsimp only [pagedServer]
    by_cases hz : ((db.drop startAt).take m).length = 0
    · rw [if_pos hz]
      have hmin : min m (db.drop startAt).length = 0 := by
        rw [← List.length_take]; exact hz
      have hL0 : (db.drop startAt).length = 0 := by
        rcases Nat.min_eq_zero_iff.mp hmin with h | h
        · omega
        · exact h
      have hnil : db.drop startAt = [] := List.length_eq_zero.mp hL0
      have hsub : db.length - startAt = 0 := by omega
      rw [hnil, hsub]
      simp
    · rw [if_neg hz]
      by_cases hlt : ((db.drop startAt).take m).length < m
      · rw [if_pos hlt]
        have hle : (db.drop startAt).length < m := by
          rw [List.length_take] at hlt
          omega
        have htake : (db.drop startAt).take m = db.drop startAt :=
          List.take_of_length_le (by omega)
        have hdiv : (db.length - startAt) / m = 0 := Nat.div_eq_of_lt (by omega)
        rw [htake, hdiv]
      · rw [if_neg hlt]
        have hmle : m ≤ (db.drop startAt).length := by
          rw [List.length_take] at hlt
          omega
        have hclen : ((db.drop startAt).take m).length = m := by
          rw [List.length_take]
          omega
        rw [hclen]
        rw [ih (startAt + m) (acc ++ (db.drop startAt).take m)
            (((db.drop startAt).take m).foldl updateIssueCache cache) (reqs + 1) (by omega)]
        have hdd : db.drop (startAt + m) = (db.drop startAt).drop m := by
          rw [List.drop_drop, Nat.add_comm]
        have hsplit : (db.drop startAt).take m ++ db.drop (startAt + m) = db.drop startAt := by
          rw [hdd, List.take_append_drop]
        rw [List.append_assoc, hsplit, ← List.foldl_append, hsplit]
        have hn : db.length - (startAt + m) = db.length - startAt - m := by omega
        rw [hn, Nat.div_eq_sub_div hm (show m ≤ db.length - startAt by omega)]
        have harith : reqs + 1 + (db.length - startAt - m) / m + 1 =
            reqs + ((db.length - startAt - m) / m + 1) + 1 := by omega
        rw [harith]

/-- Any error result of the pagination loop is either the wrapped error of
some issued page request (the Go `fmt.Errorf("error searching issues: %w",
err)`), or the fuel-exhaustion marker of this model. -/
lemma getIssuesLoop_error_named (search : SearchFun) (jql : String) (m : Nat) :
    ∀ (fuel startAt : Nat) (acc : List Issue) (cache : Cache) (reqs : Nat)
      (e : String) (cache' : Cache) (n : Nat),
      getIssuesLoop search jql m fuel startAt acc cache reqs = (.error e, cache', n) →
      (∃ i cause, search jql i m = .error cause ∧ e = "error searching issues: " ++ cause)
        ∨ e = "pagination loop did not terminate" := by
  intro fuel
  induction fuel with
  | zero =>
    intro startAt acc cache reqs e cache' n h
    unfold getIssuesLoop at h
    simp only [Prod.mk.injEq, Except.error.injEq] at h
    exact Or.inr h.1.symm
  | succ fuel ih =>
    intro startAt acc cache reqs e cache' n h
    unfold getIssuesLoop at h
    cases hs : search jql startAt m with
    | error c =>
      rw [hs] at h
      dsimp only at h
      simp only [Prod.mk.injEq, Except.error.injEq] at h
      exact Or.inl ⟨startAt, c, hs, h.1.symm⟩
    | ok chunk =>
      rw [hs] at h
      dsimp only at h
      by_cases hz : chunk.length = 0
      · rw [if_pos hz] at h
        simp at h
      · rw [if_neg hz] at h
        by_cases hlt : chunk.length < m
        · rw [if_pos hlt] at h
          simp at h
        · rw [if_neg hlt] at h
          exact ih _ _ _ _ _ _ _ h

/-- On a fetch failure `RefreshData` leaves `lastRefresh` untouched but
keeps the cache state as mutated by the failed retrieval. -/
lemma RefreshData_error (j : JiraClient) (search : SearchFun) (fuel now : Nat)
    (e : String) (h : (GetIssues j search fuel).1 = .error e) :
    RefreshData j search fuel now = { j with issueCache := (GetIssues j search fuel).2.1 } := by
  rcases hG : GetIssues j search fuel with ⟨res, cache, n⟩
  rw [hG] at h
  dsimp only at h
  unfold RefreshData
  rw [hG, h]

/-- On a successful fetch `RefreshData` commits the retrieval's cache and
sets `lastRefresh` to the commit-time clock reading. -/
lemma RefreshData_ok (j : JiraClient) (search : SearchFun) (fuel now : Nat)
    (iss : List Issue) (h : (GetIssues j search fuel).1 = .ok iss) :
    RefreshData j search fuel now =
      { j with issueCache := (GetIssues j search fuel).2.1, lastRefresh := now } := by
  rcases hG : GetIssues j search fuel with ⟨res, cache, n⟩
  rw [hG] at h
  dsimp only at h
  unfold RefreshData
  rw [hG, h]
  dsimp only
  rw [ConvertToCustomIssues_eq]

/-- The cache after a successful `GetIssues` is the previous cache with
exactly the returned issues inserted in order, keyed by `ID`. -/
lemma GetIssues_ok_cache (j : JiraClient) (search : SearchFun) (fuel : Nat)
    (iss : List Issue) (h : (GetIssues j search fuel).1 = .ok iss) :
    (GetIssues j search fuel).2.1 = iss.foldl updateIssueCache j.issueCache := by
  rcases hG : GetIssues j search fuel with ⟨res, cache, n⟩
  rw [hG] at h
  dsimp only at h
  subst h
  have hloop : getIssuesLoop search (buildJQL j) 1000 fuel 0 [] j.issueCache 0 =
      (.ok iss, cache, n) := hG
  obtain ⟨extra, hout, hcache⟩ :=
    getIssuesLoop_ok_extra search (buildJQL j) 1000 fuel 0 [] j.issueCache 0 iss cache n hloop
  simp only [List.nil_append] at hout
  subst hout
  exact hcache

/-- Raw fields with every field at its zero value. -/
def emptyFields : IssueFields := {}

/-- Concrete issue numbered `n`, used by the concrete scenarios below. -/
def mkIssue (n : Nat) : Issue :=
  { ID := Nat.repr n, Key := "K" ++ Nat.repr n, Fields := emptyFields }

/-- The empty issue cache (process start). -/
def emptyCache : Cache := fun _ => none

/-- Five-issue server result set for the pagination scenario. -/
def db5 : List Issue := (List.range 5).map mkIssue

/-- A fresh client with the default project key and no extra filter. -/
def c1client : JiraClient :=
  { projectKey := "INCI", queryFilter := "", issueCache := emptyCache }

/-- A full first page of 1000 issues (the hard-coded page size of
`GetIssues`), so that a second page is requested. -/
def c1issues : List Issue := (List.range 1000).map mkIssue

/-- Server whose first page is full and whose second page request fails. -/
def c1server : SearchFun :=
  fun _ startAt _ => if startAt = 0 then .ok c1issues else .error "boom"

/-- Raw issue of the specification scenario: key `INCI-1`, zero
resolution timestamp, severity `{"value":"SEV2"}`, service
`["payments"]`. -/
def inci1 : Issue :=
  { ID := "10001"
    Key := "INCI-1"
    Fields :=
      { Resolutiondate := none
        Unknowns := [("customfield_18119", .obj [("value", .str "SEV2")]),
                     ("customfield_33803", .arr [.str "payments"])] } }

/-- Unfolding equation of the pagination loop for one unit of fuel. -/
lemma getIssuesLoop_succ (search : SearchFun) (jql : String) (m fuel startAt : Nat)
    (allIssues : List Issue) (cache : Cache) (reqs : Nat) :
    getIssuesLoop search jql m (Nat.succ fuel) startAt allIssues cache reqs =
      match search jql startAt m with
      | .error e => (.error ("error searching issues: " ++ e), cache, reqs + 1)
      | .ok chunk =>
        if chunk.length = 0 then (.ok allIssues, cache, reqs + 1)
        else
          let cache' := chunk.foldl updateIssueCache cache
          let allIssues' := allIssues ++ chunk
          if chunk.length < m then (.ok allIssues', cache', reqs + 1)
          else getIssuesLoop search jql m fuel (startAt + chunk.length) allIssues' cache' (reqs + 1) :=
  rfl

lemma c1issues_length : c1issues.length = 1000 := by
  simp [c1issues]

lemma c1server_page0 : c1server (buildJQL c1client) 0 1000 = .ok c1issues := rfl

lemma c1server_page1 : c1server (buildJQL c1client) (0 + c1issues.length) 1000 = .error "boom" := by
  rw [c1issues_length]
  rfl

/-- Symbolic run of `GetIssues` against `c1server`: the first page is
fetched and cached, the second page request fails, and the whole
retrieval surfaces the wrapped error. -/
lemma c1_GetIssues :
    GetIssues c1client c1server 2 =
      (.error "error searching issues: boom",
       c1issues.foldl updateIssueCache emptyCache, 2) := by
  show getIssuesLoop c1server (buildJQL c1client) 1000 (Nat.succ (Nat.succ 0)) 0 []
      c1client.issueCache 0 = _
  rw [getIssuesLoop_succ, c1server_page0]
  dsimp only
  rw [if_neg (by rw [c1issues_length]; omega), if_neg (by rw [c1issues_length]; omega)]
  rw [getIssuesLoop_succ, c1server_page1]
  dsimp only
  rfl

/-- The failed retrieval has nevertheless inserted the first page into the
cache: the last inserted issue is present under its `ID`. -/
lemma c1cache_999 : (c1issues.foldl updateIssueCache emptyCache) "999" = some (mkIssue 999) := by
  have hsplit : c1issues = (List.range 999).map mkIssue ++ [mkIssue 999] := by
    rw [show c1issues = (List.range (999 + 1)).map mkIssue from rfl]
    rw [List.range_succ, List.map_append]
    rfl
  rw [hsplit, List.foldl_append]
  simp only [List.foldl_cons, List.foldl_nil]
  show (if "999" = (mkIssue 999).ID then some (mkIssue 999)
      else (List.foldl updateIssueCache emptyCache ((List.range 999).map mkIssue)) "999") =
    some (mkIssue 999)
  rw [if_pos (show ("999" : String) = (mkIssue 999).ID from rfl)]

/-- Sanity anchor for the timestamp parser on a well-formed input. -/
lemma parseJiraTime_wellFormed :
    parseJiraTime "2024-03-07T12:34:56.123+0300" =
      some { year := 2024, month := 3, day := 7, hour := 12, minute := 34, second := 56,
             nanos := 123000000, tzMinutes := 180 } := by
  decide

/-- Issue cached by an earlier refresh cycle. -/
def oldIssue : Issue := { ID := "OLD", Key := "OLD-1", Fields := emptyFields }

/-- Issue fetched by the current refresh cycle. -/
def newIssue : Issue := { ID := "NEW", Key := "NEW-1", Fields := emptyFields }

/-- Client state after an earlier cycle cached `oldIssue`. -/
def c2client : JiraClient :=
  { projectKey := "INCI", queryFilter := "", lastRefresh := 1,
    issueCache := updateIssueCache emptyCache oldIssue }

/-- Server whose current result set is exactly `[newIssue]`. -/
def c2server : SearchFun :=
  fun _ startAt _ => if startAt = 0 then .ok [newIssue] else .ok []

/-- Concrete run of `GetIssues` against `c2server`: one short page. -/
lemma c2_GetIssues :
    GetIssues c2client c2server 1 =
      (.ok [newIssue], updateIssueCache (updateIssueCache emptyCache oldIssue) newIssue, 1) := by
  rfl

/-- Identity object whose username and display name differ. -/
def c5user : JiraUser := { name := "jdoe", displayName := "John Doe" }

/-- Raw issue with assignee and reporter set to `c5user`. -/
def c5issue : Issue :=
  { ID := "1", Key := "I-1",
    Fields := { emptyFields with Assignee := some c5user, Reporter := some c5user } }

/-- Raw issue whose closed-timestamp custom field is malformed and whose
service custom field has the wrong shape (a bare string, not an array). -/
def c7issue : Issue :=
  { ID := "7", Key := "I-7",
    Fields := { Unknowns := [("customfield_20908", .str "not-a-date"),
                             ("customfield_33803", .str "oops")] } }

/-- Server that always answers with an empty result set. -/
def emptyServer : SearchFun := fun _ _ _ => .ok []

/-- C1, counterexample.  A refresh cycle against `c1server` (full first
page of 1000 issues, failing second page) aborts with the wrapped error
and leaves `lastRefreshTime` unchanged, but the Snapshot Cache is NOT
left unchanged: the first page was already inserted during retrieval
(here: the entry with ID `999`, absent before the cycle, is present after
the failed cycle).  This refutes the all-or-nothing part of the claim. -/
theorem claim_C1_counterexample :
    (GetIssues c1client c1server 2).1 = .error "error searching issues: boom"
    ∧ c1client.issueCache "999" = none
    ∧ ((RefreshData c1client c1server 2 42).issueCache "999").map Issue.Key = some "K999"
    ∧ (RefreshData c1client c1server 2 42).lastRefresh = c1client.lastRefresh := by
  have hE : (GetIssues c1client c1server 2).1 = .error "error searching issues: boom" := by
    rw [c1_GetIssues]
  have hR := RefreshData_error c1client c1server 2 42 _ hE
  have hcacheEq : (RefreshData c1client c1server 2 42).issueCache =
      (GetIssues c1client c1server 2).2.1 := by
    rw [hR]
  refine ⟨hE, rfl, ?_, ?_⟩
  · calc ((RefreshData c1client c1server 2 42).issueCache "999").map Issue.Key
        = ((GetIssues c1client c1server 2).2.1 "999").map Issue.Key := by rw [hcacheEq]
      _ = ((c1issues.foldl updateIssueCache emptyCache) "999").map Issue.Key := by
            rw [c1_GetIssues]
      _ = (some (mkIssue 999)).map Issue.Key := by rw [c1cache_999]
      _ = some "K999" := rfl
  · rw [hR]

/-- C1, amended.  If any page request fails during a refresh cycle's
retrieval, the retrieval aborts returning no issue list, with an error of
the form `error searching issues: cause` naming the underlying cause of
some issued page request (or, only in this model, the fuel-exhaustion
marker), and `lastRefreshTime` is left unchanged; however, the refresh
commits the cache as mutated by the partial retrieval, so issues from
pages fetched before the failure remain cached. -/
theorem claim_C1 (j : JiraClient) (search : SearchFun) (fuel now : Nat) (e : String)
    (h : (GetIssues j search fuel).1 = .error e) :
    (RefreshData j search fuel now).lastRefresh = j.lastRefresh
    ∧ (RefreshData j search fuel now).issueCache = (GetIssues j search fuel).2.1
    ∧ ((∃ i cause, search (buildJQL j) i 1000 = .error cause
          ∧ e = "error searching issues: " ++ cause)
        ∨ e = "pagination loop did not terminate") := by
  refine ⟨?_, ?_, ?_⟩
  · rw [RefreshData_error j search fuel now e h]
  · rw [RefreshData_error j search fuel now e h]
  · rcases hG : GetIssues j search fuel with ⟨res, cache, n⟩
    rw [hG] at h
    dsimp only at h
    subst h
    have hloop : getIssuesLoop search (buildJQL j) 1000 fuel 0 [] j.issueCache 0 =
        (.error e, cache, n) := hG
    exact getIssuesLoop_error_named search (buildJQL j) 1000 fuel 0 [] j.issueCache 0
      e cache n hloop

/-- Witness for C1 at the concrete failing server. -/
theorem claim_C1_witness :
    (RefreshData c1client c1server 2 42).lastRefresh = c1client.lastRefresh
    ∧ (RefreshData c1client c1server 2 42).issueCache = (GetIssues c1client c1server 2).2.1
    ∧ ((∃ i cause, c1server (buildJQL c1client) i 1000 = .error cause
          ∧ "error searching issues: boom" = "error searching issues: " ++ cause)
        ∨ "error searching issues: boom" = "pagination loop did not terminate") :=
  claim_C1 c1client c1server 2 42 "error searching issues: boom" (by rw [c1_GetIssues])

/-- C2, counterexample.  A successful refresh cycle whose retrieval
returned exactly `[newIssue]` leaves the entry cached by an earlier cycle
under ID `OLD` in place: the cached mapping does not contain exactly the
issues of the current cycle, entries survive from earlier cycles. -/
theorem claim_C2_counterexample :
    (GetIssues c2client c2server 1).1 = .ok [newIssue]
    ∧ (∀ i ∈ [newIssue], i.ID ≠ "OLD")
    ∧ ((RefreshData c2client c2server 1 9).issueCache "OLD").map Issue.Key = some "OLD-1" := by
  have hG : (GetIssues c2client c2server 1).1 = .ok [newIssue] := by rw [c2_GetIssues]
  have hR := RefreshData_ok c2client c2server 1 9 [newIssue] hG
  refine ⟨hG, ?_, ?_⟩
  · intro i hi
    rw [List.mem_singleton] at hi
    subst hi
    decide
  · rw [hR]
    show ((GetIssues c2client c2server 1).2.1 "OLD").map Issue.Key = some "OLD-1"
    rw [c2_GetIssues]
    rfl

/-- C2, amended.  On every successful refresh cycle the fetched issues
are upserted, keyed by issue `ID`, into the previously cached mapping
(the insertions happen during retrieval); cached entries whose ID is not
among the fetched issues survive unchanged — the mapping is merged, never
repopulated wholesale. -/
theorem claim_C2 (j : JiraClient) (search : SearchFun) (fuel now : Nat)
    (iss : List Issue) (h : (GetIssues j search fuel).1 = .ok iss) :
    (RefreshData j search fuel now).issueCache = iss.foldl updateIssueCache j.issueCache
    ∧ ∀ k, (∀ i ∈ iss, i.ID ≠ k) →
        (RefreshData j search fuel now).issueCache k = j.issueCache k := by
  have hc := GetIssues_ok_cache j search fuel iss h
  have hR := RefreshData_ok j search fuel now iss h
  constructor
  · rw [hR]
    show (GetIssues j search fuel).2.1 = _
    exact hc
  · intro k hk
    rw [hR]
    show (GetIssues j search fuel).2.1 k = j.issueCache k
    rw [hc]
    exact foldl_updateIssueCache_notMem iss j.issueCache k hk

/-- Witness for C2 at the concrete one-issue server. -/
theorem claim_C2_witness :
    (RefreshData c2client c2server 1 9).issueCache =
      [newIssue].foldl updateIssueCache c2client.issueCache
    ∧ ∀ k, (∀ i ∈ [newIssue], i.ID ≠ k) →
        (RefreshData c2client c2server 1 9).issueCache k = c2client.issueCache k :=
  claim_C2 c2client c2server 1 9 [newIssue] (by rw [c2_GetIssues])

/-- C3.  Evaluation at the failing input (project key `INCI`, filter
clause `labels = x`): the code appends the extra clause with `AND` after
the `ORDER BY` clause, instead of ANDing it into the filter expression
before the ordering clause as the specification mandates; with an empty
clause the two constructions agree. -/
theorem claim_C3_eval :
    buildJQL { projectKey := "INCI", queryFilter := "labels = x", issueCache := emptyCache } =
      "project = INCI AND status not in (Cancelled,Rejected) AND created>=startOfYear(-1y) ORDER BY created DESC AND labels = x"
    ∧ buildJQLSpec "INCI" "labels = x" =
      "project = INCI AND status not in (Cancelled,Rejected) AND created>=startOfYear(-1y) AND labels = x ORDER BY created DESC"
    ∧ buildJQL { projectKey := "INCI", queryFilter := "labels = x", issueCache := emptyCache } ≠
        buildJQLSpec "INCI" "labels = x"
    ∧ buildJQL { projectKey := "INCI", queryFilter := "", issueCache := emptyCache } =
        buildJQLSpec "INCI" "" := by
  exact ⟨by rfl, by rfl, by decide, by rfl⟩

/-- C4.  Pagination: for every result set and page size, the loop starts
at offset 0, advances by the records returned, stops on a short or empty
page, returns all issues in server order (inserting exactly them into the
cache) after `length / pageSize + 1` requests; `GetIssues` realizes this
at its fixed page size 1000; and at page size 2 over a 5-issue result set
(pages of 2,2,1) it returns exactly the 5 issues after exactly 3 page
requests. -/
theorem claim_C4 :
    (∀ (db : List Issue) (jql : String) (m fuel : Nat) (cache : Cache),
      0 < m → db.length < fuel →
      getIssuesLoop (pagedServer db) jql m fuel 0 [] cache 0 =
        (.ok db, db.foldl updateIssueCache cache, db.length / m + 1))
    ∧ (∀ (j : JiraClient) (db : List Issue) (fuel : Nat),
      db.length < fuel →
      GetIssues j (pagedServer db) fuel =
        (.ok db, db.foldl updateIssueCache j.issueCache, db.length / 1000 + 1))
    ∧ getIssuesLoop (pagedServer db5) "query" 2 6 0 [] emptyCache 0 =
        (.ok db5, db5.foldl updateIssueCache emptyCache, 3) := by
  have hgen : ∀ (db : List Issue) (jql : String) (m fuel : Nat) (cache : Cache),
      0 < m → db.length < fuel →
      getIssuesLoop (pagedServer db) jql m fuel 0 [] cache 0 =
        (.ok db, db.foldl updateIssueCache cache, db.length / m + 1) := by
    intro db jql m fuel cache hm hf
    have h := getIssuesLoop_paged db jql m hm fuel 0 [] cache 0 (by omega)
    simpa using h
  refine ⟨hgen, ?_, ?_⟩
  · intro j db fuel hf
    exact hgen db (buildJQL j) 1000 fuel j.issueCache (by omega) hf
  · have h5 : db5.length = 5 := by simp [db5]
    have h := hgen db5 "query" 2 6 emptyCache (by omega) (by rw [h5]; omega)
    rw [h, h5]

/-- Witness for C4 at the concrete five-issue result set. -/
theorem claim_C4_witness :
    getIssuesLoop (pagedServer db5) "jql" 2 6 0 [] emptyCache 0 =
      (.ok db5, db5.foldl updateIssueCache emptyCache, db5.length / 2 + 1)
    ∧ GetIssues c1client (pagedServer db5) 6 =
      (.ok db5, db5.foldl updateIssueCache c1client.issueCache, db5.length / 1000 + 1) := by
  have h5 : db5.length = 5 := by simp [db5]
  exact ⟨claim_C4.1 db5 "jql" 2 6 emptyCache (by omega) (by rw [h5]; omega),
         claim_C4.2.1 c1client db5 6 (by rw [h5]; omega)⟩

/-- C5, counterexample.  For an identity object whose username and
display name differ, the mapper emits the username `jdoe`, not the
display name `John Doe`: the claim that assignee/reporter are set to the
display name fails at this input. -/
theorem claim_C5_counterexample :
    c5issue.Fields.Assignee = some c5user
    ∧ c5user.displayName = "John Doe"
    ∧ (convertOne c5issue).Assignee = "jdoe"
    ∧ (convertOne c5issue).Assignee ≠ c5user.displayName := by
  exact ⟨rfl, rfl, by decide, by decide⟩

/-- C5, amended.  For every Raw Issue the mapper sets the normalized
assignee and reporter to the `Name` (username) property of the
corresponding nested identity object, and leaves them empty when that
identity object is absent. -/
theorem claim_C5 (issue : Issue) :
    (convertOne issue).Assignee = (issue.Fields.Assignee.map JiraUser.name).getD ""
    ∧ (convertOne issue).Reporter = (issue.Fields.Reporter.map JiraUser.name).getD "" := by
  rw [convertOne_eq]
  exact ⟨rfl, rfl⟩

/-- C6.  The fixed vendor custom-field table is reproduced exactly:
closed/started/firefighting from bare-string timestamps under
`customfield_20908` / `customfield_18117` / `customfield_21200`, head
from the `name` object under `customfield_22501`, severity from the
`value` object under `customfield_18119`, service and root cause from the
first string of the arrays under `customfield_33803` / `customfield_37238`;
and the `INCI-1` scenario maps as specified (resolved absent, severity
`SEV2`, service `payments`). -/
theorem claim_C6 :
    (∀ issue : Issue,
      (convertOne issue).Closed =
        specTimestampShape (mapGet issue.Fields.Unknowns "customfield_20908")
      ∧ (convertOne issue).Head =
        (specNameShape (mapGet issue.Fields.Unknowns "customfield_22501")).getD ""
      ∧ (convertOne issue).Started =
        specTimestampShape (mapGet issue.Fields.Unknowns "customfield_18117")
      ∧ (convertOne issue).Firefighting =
        specTimestampShape (mapGet issue.Fields.Unknowns "customfield_21200")
      ∧ (convertOne issue).Severity =
        (specValueShape (mapGet issue.Fields.Unknowns "customfield_18119")).getD ""
      ∧ (convertOne issue).Service =
        (specFirstStringShape (mapGet issue.Fields.Unknowns "customfield_33803")).getD ""
      ∧ (convertOne issue).RootCause =
        (specFirstStringShape (mapGet issue.Fields.Unknowns "customfield_37238")).getD "")
    ∧ ((convertOne inci1).Key = "INCI-1"
      ∧ (convertOne inci1).Resolved = none
      ∧ (convertOne inci1).Severity = "SEV2"
      ∧ (convertOne inci1).Service = "payments") := by
  constructor
  · intro issue
    rw [convertOne_eq]
    exact ⟨rfl, rfl, rfl, rfl, rfl, rfl, rfl⟩
  · exact ⟨by decide, by decide, by decide, by decide⟩

/-- C7.  The batch mapper never errors and yields one output record per
input record, each depending only on its own input; a custom field that
is absent, of the wrong shape, or an unparseable timestamp is left absent
for that field only — witnessed by the full record-level
characterization, which localizes every output field to its own
projection of the raw issue. -/
theorem claim_C7 :
    (∀ (j : JiraClient) (issues : List Issue),
      ConvertToCustomIssues j issues = .ok (issues.map convertOne))
    ∧ (∀ (j : JiraClient) (issues : List Issue) (out : List JiraIssue),
      ConvertToCustomIssues j issues = .ok out → out.length = issues.length)
    ∧ (∀ (issue : Issue) (s : String),
      mapGet issue.Fields.Unknowns "customfield_20908" = some (.str s) →
      parseJiraTime s = none → (convertOne issue).Closed = none)
    ∧ (∀ issue : Issue,
      mapGet issue.Fields.Unknowns "customfield_18119" = none →
      (convertOne issue).Severity = "")
    ∧ (∀ (issue : Issue) (v : UValue),
      mapGet issue.Fields.Unknowns "customfield_33803" = some v →
      (∀ l, v ≠ .arr l) → (convertOne issue).Service = "")
    ∧ (∀ issue : Issue, convertOne issue =
        { Key := issue.Key
          Assignee := (issue.Fields.Assignee.map JiraUser.name).getD ""
          Reporter := (issue.Fields.Reporter.map JiraUser.name).getD ""
          Created := issue.Fields.Created
          Updated := issue.Fields.Updated
          Resolved := issue.Fields.Resolutiondate
          IssueType := issue.Fields.Typ.name
          Closed := specTimestampShape (mapGet issue.Fields.Unknowns "customfield_20908")
          Head := (specNameShape (mapGet issue.Fields.Unknowns "customfield_22501")).getD ""
          Started := specTimestampShape (mapGet issue.Fields.Unknowns "customfield_18117")
          Firefighting := specTimestampShape (mapGet issue.Fields.Unknowns "customfield_21200")
          Severity := (specValueShape (mapGet issue.Fields.Unknowns "customfield_18119")).getD ""
          Service := (specFirstStringShape (mapGet issue.Fields.Unknowns "customfield_33803")).getD ""
          RootCause := (specFirstStringShape (mapGet issue.Fields.Unknowns "customfield_37238")).getD "" }) := by
  refine ⟨fun j issues => ConvertToCustomIssues_eq j issues, ?_, ?_, ?_, ?_, convertOne_eq⟩
  · intro j issues out h
    rw [ConvertToCustomIssues_eq] at h
    injection h with h
    subst h
    exact List.length_map issues convertOne
  · intro issue s hs hp
    rw [convertOne_eq]
    show specTimestampShape (mapGet issue.Fields.Unknowns "customfield_20908") = none
    rw [hs]
    show parseJiraTime s = none
    exact hp
  · intro issue h
    rw [convertOne_eq]
    show (specValueShape (mapGet issue.Fields.Unknowns "customfield_18119")).getD "" = ""
    rw [h]
    rfl
  · intro issue v hv hne
    rw [convertOne_eq]
    show (specFirstStringShape (mapGet issue.Fields.Unknowns "customfield_33803")).getD "" = ""
    rw [hv]
    cases v with
    | arr l => exact absurd rfl (hne l)
    | str s => rfl
    | obj m => rfl
    | num n => rfl
    | boolv b => rfl
    | null => rfl

/-- Witness for C7 at a concrete issue with a malformed timestamp, a
missing severity field, and a wrongly shaped service field. -/
theorem claim_C7_witness :
    ConvertToCustomIssues c1client [c7issue] = .ok ([c7issue].map convertOne)
    ∧ (convertOne c7issue).Closed = none
    ∧ (convertOne c7issue).Severity = ""
    ∧ (convertOne c7issue).Service = "" := by
  refine ⟨claim_C7.1 c1client [c7issue], ?_, ?_, ?_⟩
  · exact claim_C7.2.2.1 c7issue "not-a-date" (by rfl) (by decide)
  · exact claim_C7.2.2.2.1 c7issue (by rfl)
  · exact claim_C7.2.2.2.2.1 c7issue (.str "oops") (by rfl)
      (fun l h => UValue.noConfusion h)

/-- C8.  The mapper is a pure, deterministic function of its input: its
result does not depend on the client state (the Go receiver), is
unchanged by refresh cycles mutating that state, and mapping the same
raw issue twice yields identical normalized records. -/
theorem claim_C8 :
    (∀ (j₁ j₂ : JiraClient) (issues : List Issue),
      ConvertToCustomIssues j₁ issues = ConvertToCustomIssues j₂ issues)
    ∧ (∀ (j : JiraClient) (search : SearchFun) (fuel now : Nat) (issues : List Issue),
      ConvertToCustomIssues (RefreshData j search fuel now) issues =
        ConvertToCustomIssues j issues)
    ∧ (∀ (j : JiraClient) (issue : Issue),
      ConvertToCustomIssues j [issue, issue] = .ok [convertOne issue, convertOne issue]) := by
  refine ⟨fun j₁ j₂ issues => rfl, fun j s f n issues => rfl, fun j issue => ?_⟩
  rw [ConvertToCustomIssues_eq]
  rfl

/-- C9.  Across consecutive successful refresh cycles whose commit-time
clock readings are non-decreasing, the recorded `lastRefresh` is
non-decreasing: each successful cycle records exactly its commit-time
clock reading. -/
theorem claim_C9 (j : JiraClient) (s₁ s₂ : SearchFun) (f₁ f₂ t₁ t₂ : Nat)
    (iss₁ iss₂ : List Issue)
    (h₁ : (GetIssues j s₁ f₁).1 = .ok iss₁)
    (h₂ : (GetIssues (RefreshData j s₁ f₁ t₁) s₂ f₂).1 = .ok iss₂)
    (hle : t₁ ≤ t₂) :
    GetLastRefreshTime (RefreshData j s₁ f₁ t₁) ≤
      GetLastRefreshTime (RefreshData (RefreshData j s₁ f₁ t₁) s₂ f₂ t₂)
    ∧ GetLastRefreshTime (RefreshData j s₁ f₁ t₁) = t₁
    ∧ GetLastRefreshTime (RefreshData (RefreshData j s₁ f₁ t₁) s₂ f₂ t₂) = t₂ := by
  have e₁ : GetLastRefreshTime (RefreshData j s₁ f₁ t₁) = t₁ := by
    rw [RefreshData_ok j s₁ f₁ t₁ iss₁ h₁]
    rfl
  have e₂ : GetLastRefreshTime (RefreshData (RefreshData j s₁ f₁ t₁) s₂ f₂ t₂) = t₂ := by
    rw [RefreshData_ok _ s₂ f₂ t₂ iss₂ h₂]
    rfl
  exact ⟨by rw [e₁, e₂]; exact hle, e₁, e₂⟩

/-- Witness for C9 at two successful cycles against the empty server. -/
theorem claim_C9_witness :
    GetLastRefreshTime (RefreshData c1client emptyServer 1 3) ≤
      GetLastRefreshTime (RefreshData (RefreshData c1client emptyServer 1 3) emptyServer 1 5)
    ∧ GetLastRefreshTime (RefreshData c1client emptyServer 1 3) = 3
    ∧ GetLastRefreshTime (RefreshData (RefreshData c1client emptyServer 1 3) emptyServer 1 5) = 5 :=
  claim_C9 c1client emptyServer emptyServer 1 1 3 5 [] [] (by rfl) (by rfl) (by omega)

/-- C10.  The mapper leaves `Fixed`, `Regions`, `Recovery`, `Detected`,
`Escalated`, `Metrics`, `Environment`, `Application`, `BusinessProcess`
and `Score` at their zero-value defaults for every input: no mapping rule
ever assigns them. -/
theorem claim_C10 (issue : Issue) :
    (convertOne issue).Fixed = none
    ∧ (convertOne issue).Regions = ""
    ∧ (convertOne issue).Recovery = ""
    ∧ (convertOne issue).Detected = none
    ∧ (convertOne issue).Escalated = none
    ∧ (convertOne issue).Metrics = ""
    ∧ (convertOne issue).Environment = ""
    ∧ (convertOne issue).Application = ""
    ∧ (convertOne issue).BusinessProcess = ""
    ∧ (convertOne issue).Score = 0 := by
  rw [convertOne_eq]
  exact ⟨rfl, rfl, rfl, rfl, rfl, rfl, rfl, rfl, rfl, rfl⟩

end Aim
